import Mathlib

/-!
Verification development for the go-strava client library.

The Go sources (package `strava`: config.go and the activity file) are shallowly
embedded below. External collaborators are modelled by their observable
behaviour:
- the HTTP transport (`http.Client.Do`) is a parameter of type
  `HTTPRequest → DoResult`;
- JSON decoding (`encoding/json.Unmarshal`) is a parameter returning the decoded
  value together with an optional error;
- `go-types` `Map` (a Go `map[string]interface{}`) is an association list with
  replace-or-append insertion (Go map keys are unique, so theorems about map
  contents carry a `Nodup` hypothesis on the keys);
- `go-types` `Date` is modelled by the two observables the code uses,
  `IsZero` and `Unix`;
- `go-convert` `convert.String` is modelled on the value kinds that actually
  occur (strings, signed and unsigned integers).
A Go panic (nil-pointer dereference) is modelled as an explicit `panicked`
outcome constructor.
-/

/-- A dynamic Go value (`interface\x7b\x7d`) as stored in a `types.Map`.
Only the kinds that occur in the repository are represented. -/
inductive GoVal where
  | str (s : String)
  | int (i : Int)
  | nat (n : Nat)
  deriving DecidableEq, Repr

/-- `convert.String` from github.com/kovacou/go-convert, restricted to the value
kinds above: Go renders integers in decimal, same as `toString`. -/
def convertString : GoVal → String
  | .str s => s
  | .int i => toString i
  | .nat n => toString n

/-- Replace-or-append insertion into an association list.  This is the common
semantics of `map[k] = v` (i.e. `types.Map.Set`), `url.Values.Set` and
`http.Header.Set` as used with the distinct literal keys of this repository. -/
def setAssoc {α : Type} : List (String × α) → String → α → List (String × α)
  | [], k, v => [(k, v)]
  | (k', v') :: rest, k, v =>
    if k' = k then (k, v) :: rest else (k', v') :: setAssoc rest k v

/-- Lookup in an association list (first binding wins), the observable used to
read a header back out of a built request. -/
def getAssoc {α : Type} : List (String × α) → String → Option α
  | [], _ => none
  | (k', v') :: rest, k => if k' = k then some v' else getAssoc rest k

/-- `Config` from config.go. -/
structure Config where
  Host : String
  ClientID : String
  ClientSecret : String
  RedirectURI : String
  Timeout : Nat
  Scope : String
  deriving DecidableEq, Repr

/-- `RequestParams` from config.go: the parameters to request the API. -/
structure RequestParams where
  Queries : List (String × GoVal) := []
  Values : List (String × GoVal) := []
  WithBearer : Bool := false
  WithFormURLEncoded : Bool := false
  deriving DecidableEq, Repr

/-- The observable parts of the `http.Request` built by `Request`: the method,
the URL (without its query string), the query string as decoded key/value
pairs (`url.Values.Encode` sorts keys lexicographically, which does not change
which pairs appear, so the pair list is kept in insertion order), the headers,
and the body (`http.NewRequest` with a nil `io.Reader` yields an empty body). -/
structure HTTPRequest where
  method : String
  url : String
  query : List (String × String)
  headers : List (String × String)
  body : String
  deriving DecidableEq, Repr

/-- The observable parts of an `http.Response`. -/
structure HTTPResponse where
  statusCode : Nat
  body : String
  deriving DecidableEq, Repr

/-- Result of `http.Client.Do`: either a response with a nil error, or a nil
response with a non-nil transport error (the standard-library contract for a
failed send; the error is carried as its message string). -/
inductive DoResult where
  | ok (r : HTTPResponse)
  | fail (e : String)
  deriving DecidableEq, Repr

/-- The Go `error` values produced by this package: the `AuthorizationError`
sentinel, a transport error message, a `fmt.Errorf` message (used for the
unsupported-grant error), or a JSON decode error message. -/
inductive GoError where
  | authorizationError
  | transport (e : String)
  | errorMsg (msg : String)
  | jsonError (msg : String)
  deriving DecidableEq, Repr

/-- Outcome of `Request`: either a Go panic (the nil-pointer dereference on
`r.StatusCode` when `Do` failed), or the returned `(*http.Response, error)`
pair, whose response component is non-nil on every non-panicking path. -/
inductive RequestOutcome where
  | panicked
  | result (r : HTTPResponse) (err : Option GoError)
  deriving DecidableEq, Repr

/-- `GrantAuthorizationCode` constant from config.go. -/
def GrantAuthorizationCode : String := "authorization_code"

/-- `GrantRefreshToken` constant from config.go. -/
def GrantRefreshToken : String := "refresh_token"

/-- `http.MethodPost`. -/
def MethodPost : String := "POST"

/-- `http.MethodGet`. -/
def MethodGet : String := "GET"

/-- `http.StatusUnauthorized`. -/
def StatusUnauthorized : Nat := 401

/-- `http.StatusOK`. -/
def StatusOK : Nat := 200

/-- The `strava` struct from config.go: the client state behind the `Client`
interface (the embedded `*http.Client` transport is passed separately to the
operations that use it). -/
structure Strava where
  cfg : Config
  accessToken : String
  userID : Nat
  deriving DecidableEq, Repr

/-- `SetAccessToken` from config.go. -/
def Strava.SetAccessToken (s : Strava) (tok : String) : Strava :=
  { s with accessToken := tok }

/-- `SetUserID` from config.go. -/
def Strava.SetUserID (s : Strava) (id : Nat) : Strava :=
  { s with userID := id }

/-- `AuthorizationURL` from config.go: a pure `fmt.Sprintf`. -/
def Strava.AuthorizationURL (s : Strava) (state : String) : String :=
  "https://www.strava.com/oauth/authorize?client_id=" ++ s.cfg.ClientID ++
    "&response_type=code&redirect_uri=http://runjoy.kovacou.com&approval_prompt=force&scope=" ++
    s.cfg.Scope ++ "&state=" ++ state

/-- The `url.Values` loop of `Request` (config.go lines 215-219): start from an
empty `url.Values`, `Set` each entry of `p.Queries` converted by
`convert.String`, and install the encoding as the request's query string. -/
def encodeQueries (qs : List (String × GoVal)) : List (String × String) :=
  qs.foldl (fun q kv => setAssoc q kv.1 (convertString kv.2)) []

/-- The request-construction part of `Request` (config.go lines 183-223):
`var values io.Reader` is never assigned (the `if method == http.MethodPost`
block is empty), so `http.NewRequest` always receives a nil body; the nil-map
normalisation of `p.Queries`/`p.Values` has no observable effect in the
association-list model.  The `Authorization` header is set first (when
`WithBearer` is set), then the query string is encoded, then `Content-Type`
and `Accept` are set. -/
def buildRequest (s : Strava) (method uri : String) (p : RequestParams) : HTTPRequest :=
  let req0 : HTTPRequest := { method := method, url := uri, query := [], headers := [], body := "" }
  let req1 :=
    if p.WithBearer then
      { req0 with headers := setAssoc req0.headers "Authorization" ("Bearer " ++ s.accessToken) }
    else req0
  let contentType :=
    if method = MethodPost ∧ p.WithFormURLEncoded = false then "application/json"
    else "application/x-www-form-urlencoded"
  let req2 := { req1 with query := encodeQueries p.Queries }
  { req2 with
    headers := setAssoc (setAssoc req2.headers "Content-Type" contentType)
      "Accept" "application/json;charset=UTF-8" }

/-- `Request` from config.go (lines 183-230): build the request, send it via
the transport, then read `r.StatusCode` — without checking `err` first.  When
`Do` returns a nil response with an error, the read of `r.StatusCode`
dereferences a nil pointer and panics; when `Do` succeeds, a 401 status
replaces the nil error with the `AuthorizationError` sentinel and the response
is returned either way. -/
def Strava.Request (s : Strava) (method uri : String) (p : RequestParams)
    (transport : HTTPRequest → DoResult) : RequestOutcome :=
  let req := buildRequest s method uri p
  match transport req with
  | .fail _ => .panicked
  | .ok r =>
    .result r (if r.statusCode = StatusUnauthorized then some .authorizationError else none)

/-- `POST` from config.go. -/
def Strava.POST (s : Strava) (endpoint : String) (p : RequestParams)
    (transport : HTTPRequest → DoResult) : RequestOutcome :=
  s.Request MethodPost (s.cfg.Host ++ endpoint) p transport

/-- `GET` from config.go. -/
def Strava.GET (s : Strava) (endpoint : String) (p : RequestParams)
    (transport : HTTPRequest → DoResult) : RequestOutcome :=
  s.Request MethodGet (s.cfg.Host ++ endpoint) p transport

/-- The nested athlete identity inside `AccessToken` (config.go lines 94-99). -/
structure AthleteIdent where
  ID : Nat
  Username : String
  Firstname : String
  Lastname : String
  deriving DecidableEq, Repr

/-- `AccessToken` from config.go: the response of the authorization. -/
structure AccessToken where
  «Type» : String
  ExpiresAt : Int
  ExpiresIn : Int
  RefreshToken : String
  AccessToken : String
  Athlete : AthleteIdent
  deriving DecidableEq, Repr

/-- The Go zero value of `AccessToken` (the named result `at` before any
assignment); named at top level because the struct has a field that is itself
called `AccessToken`. -/
def zeroAccessToken : AccessToken :=
  { «Type» := "", ExpiresAt := 0, ExpiresIn := 0, RefreshToken := "", AccessToken := "",
    Athlete := { ID := 0, Username := "", Firstname := "", Lastname := "" } }

/-- Outcome of `AuthorizationAccessToken`: a propagated panic from `Request`,
or the returned `(AccessToken, error)` pair. -/
inductive AATOutcome where
  | panicked
  | result (tokenOut : AccessToken) (err : Option GoError)
  deriving DecidableEq, Repr

/-- The shared tail of `AuthorizationAccessToken` after the grant switch
(config.go lines 170-179): set `grant_type`, POST to the fixed token endpoint,
return early on a non-nil error (with the zero-valued named result `at`),
otherwise read the body and `json.Unmarshal` it into `at`.  The client state
is returned unchanged: the method never assigns to the receiver. -/
def aatSend (s : Strava) (transport : HTTPRequest → DoResult)
    (unmarshalAccessToken : String → AccessToken × Option GoError)
    (grant : String) (p : RequestParams) : Strava × AATOutcome :=
  let p := { p with Queries := setAssoc p.Queries "grant_type" (.str grant) }
  match s.Request MethodPost "https://www.strava.com/api/v3/oauth/token" p transport with
  | .panicked => (s, .panicked)
  | .result _ (some e) => (s, .result zeroAccessToken (some e))
  | .result r none =>
    let (tokenOut, err) := unmarshalAccessToken r.body
    (s, .result tokenOut err)

/-- `AuthorizationAccessToken` from config.go (lines 149-180): queries start
with the client id and secret; the switch on the grant adds `code` or
`refresh_token`, and any other grant returns immediately with the
`fmt.Errorf` unsupported-grant error, before any network call. -/
def Strava.AuthorizationAccessToken (s : Strava) (transport : HTTPRequest → DoResult)
    (unmarshalAccessToken : String → AccessToken × Option GoError)
    (tok grant : String) : Strava × AATOutcome :=
  let p : RequestParams :=
    { Queries := [("client_id", .str s.cfg.ClientID), ("client_secret", .str s.cfg.ClientSecret)] }
  if grant = GrantAuthorizationCode then
    aatSend s transport unmarshalAccessToken grant
      { p with Queries := setAssoc p.Queries "code" (.str tok) }
  else if grant = GrantRefreshToken then
    aatSend s transport unmarshalAccessToken grant
      { p with Queries := setAssoc p.Queries "refresh_token" (.str tok) }
  else
    (s, .result zeroAccessToken
      (some (.errorMsg ("grant_type `" ++ grant ++ "` not supported"))))

/-- Model of `types.Date` (and of `time.Time`, which shares both observables):
only `IsZero` and `Unix` are ever consulted by the repository. -/
structure Date where
  isZero : Bool
  unix : Int
  deriving DecidableEq, Repr

/-- The Go zero value of a `Date`/`time.Time`: `IsZero()` is true and `Unix()`
is the constant -62135596800. -/
def Date.zeroValue : Date := { isZero := true, unix := -62135596800 }

/-- `Split` from the activity source file. -/
structure Split where
  Distance : Float
  ElevationDifference : Float
  ElapsedTime : Nat
  MovingTime : Nat
  AverageSpeed : Float
  AverageGradeAdjustedSpeed : Float
  AverageHeartRate : Float
  PaceZone : Nat
  deriving Repr

/-- `Lap` from the activity source file. -/
structure Lap where
  ID : Nat
  Split : Nat
  Index : Nat
  Name : String
  Distance : Float
  ElapsedTime : Nat
  MovingTime : Nat
  AverageSpeed : Float
  AverageHeartRate : Float
  AverageCadence : Float
  MaxSpeed : Float
  MaxHeartRate : Float
  TotalElevationGain : Float
  PaceZone : Nat
  deriving Repr

/-- The nested athlete-id sub-object of `Activity`. -/
structure ActivityAthlete where
  ID : Nat
  deriving DecidableEq, Repr

/-- The nested map/polyline sub-object of `Activity`. -/
structure ActivityMap where
  ID : String
  Polyline : String
  SummaryPolyline : String
  deriving DecidableEq, Repr

/-- `Activity` from the activity source file. -/
structure Activity where
  ID : Nat
  ExternalID : String
  UploadId : Int
  Name : String
  Description : String
  «Type» : String
  Distance : Float
  MovingTime : Nat
  ElapsedTime : Nat
  AverageSpeed : Float
  AverageCadence : Float
  AverageHeartRate : Float
  MaxSpeed : Float
  MaxHeartRate : Float
  MaxWatts : Float
  Score : Float
  Calories : Float
  TotalElevationGain : Float
  HighestElevation : Float
  LowestElevation : Float
  StartLocation : List Float
  EndLocation : List Float
  DeviceName : String
  StartAt : Date
  Splits : List Split
  Laps : List Lap
  Athlete : ActivityAthlete
  Map : ActivityMap
  deriving Repr

/-- The Go zero value of `Activity` (the named result `out` before any
assignment; nil slices are modelled as empty lists). -/
def Activity.zero : Activity :=
  { ID := 0, ExternalID := "", UploadId := 0, Name := "", Description := "", «Type» := "",
    Distance := 0, MovingTime := 0, ElapsedTime := 0, AverageSpeed := 0, AverageCadence := 0,
    AverageHeartRate := 0, MaxSpeed := 0, MaxHeartRate := 0, MaxWatts := 0, Score := 0,
    Calories := 0, TotalElevationGain := 0, HighestElevation := 0, LowestElevation := 0,
    StartLocation := [], EndLocation := [], DeviceName := "", StartAt := Date.zeroValue,
    Splits := [], Laps := [], Athlete := { ID := 0 },
    Map := { ID := "", Polyline := "", SummaryPolyline := "" } }

/-- Outcome of the `Activity` method: a propagated panic from `Request`, or
the returned `(Activity, error)` pair. -/
inductive ActivityOutcome where
  | panicked
  | result (out : Activity) (err : Option GoError)

/-- `Activity` (the method) from the activity source file (lines 92-107):
authenticated GET to the per-id endpoint; early return with the zero-valued
named result on a non-nil error; JSON decode only when the status is 200,
otherwise the zero value with a nil error. -/
def Strava.Activity (s : Strava) (transport : HTTPRequest → DoResult)
    (unmarshalActivity : String → Activity × Option GoError) (id : Nat) : ActivityOutcome :=
  match s.GET ("/activities/" ++ toString id) { WithBearer := true } transport with
  | .panicked => .panicked
  | .result _ (some e) => .result Activity.zero (some e)
  | .result r none =>
    if r.statusCode = StatusOK then
      let (out, err) := unmarshalActivity r.body
      .result out err
    else .result Activity.zero none

/-- `ActivitiesRequest` from the activity source file. -/
structure ActivitiesRequest where
  Before : Date := Date.zeroValue
  After : Date := Date.zeroValue
  Page : Nat := 0
  PerPage : Nat := 0
  deriving DecidableEq, Repr

/-- `Queries` on `ActivitiesRequest` (activity source file lines 118-138):
start from an empty map and `Set` each non-zero field. -/
def ActivitiesRequest.Queries (p : ActivitiesRequest) : List (String × GoVal) :=
  let m : List (String × GoVal) := []
  let m := if p.After.isZero = false then setAssoc m "after" (.int p.After.unix) else m
  let m := if p.Before.isZero = false then setAssoc m "before" (.int p.Before.unix) else m
  let m := if p.Page > 0 then setAssoc m "page" (.nat p.Page) else m
  let m := if p.PerPage > 0 then setAssoc m "per_page" (.nat p.PerPage) else m
  m

/-- A decoded `[]Activity` (named at top level so that the `Activities` method
can mention it without clashing with the `Strava.Activity` method name). -/
abbrev ActivityList := List Activity

/-- Outcome of the `Activities` method. -/
inductive ActivitiesOutcome where
  | panicked
  | result (out : List Activity) (err : Option GoError)

/-- `Activities` from the activity source file (lines 141-157): authenticated
GET to the collection endpoint with the translated queries; same early-return
and 200-only decode shape as `Activity` (a nil slice result is modelled as an
empty list). -/
def Strava.Activities (s : Strava) (transport : HTTPRequest → DoResult)
    (unmarshalActivities : String → ActivityList × Option GoError)
    (p : ActivitiesRequest) : ActivitiesOutcome :=
  match s.GET "/activities" { WithBearer := true, Queries := p.Queries } transport with
  | .panicked => .panicked
  | .result _ (some e) => .result [] (some e)
  | .result r none =>
    if r.statusCode = StatusOK then
      let (out, err) := unmarshalActivities r.body
      .result out err
    else .result [] none

/-! Helper lemmas about `setAssoc` and the query-encoding fold. -/

theorem mem_setAssoc_self {α : Type} (l : List (String × α)) (k : String) (v : α) :
    (k, v) ∈ setAssoc l k v := by
  induction l with
  | nil => simp [setAssoc]
  | cons hd tl ih =>
    rcases hd with ⟨k', v'⟩
    by_cases h : k' = k <;> simp [setAssoc, h, ih]

theorem mem_setAssoc_of_ne {α : Type} (l : List (String × α)) (k k' : String) (x v : α)
    (hne : k ≠ k') (h : (k, x) ∈ l) : (k, x) ∈ setAssoc l k' v := by
  induction l with
  | nil => simp at h
  | cons hd tl ih =>
    rcases hd with ⟨ka, va⟩
    simp only [setAssoc]
    by_cases hc : ka = k'
    · rw [if_pos hc]
      subst hc
      rcases List.mem_cons.mp h with h1 | h1
      · exact absurd (congrArg Prod.fst h1) hne
      · exact List.mem_cons.mpr (Or.inr h1)
    · rw [if_neg hc]
      rcases List.mem_cons.mp h with h1 | h1
      · exact List.mem_cons.mpr (Or.inl h1)
      · exact List.mem_cons.mpr (Or.inr (ih h1))

theorem mem_queryFold_preserve (qs : List (String × GoVal)) :
    ∀ (acc : List (String × String)) (k : String) (x : String),
      k ∉ qs.map Prod.fst → (k, x) ∈ acc →
      (k, x) ∈ qs.foldl (fun q kv => setAssoc q kv.1 (convertString kv.2)) acc := by
  induction qs with
  | nil => intro acc k x _ h; simpa using h
  | cons hd tl ih =>
    intro acc k x hk hmem
    simp only [List.map_cons, List.mem_cons, not_or] at hk
    exact ih _ k x hk.2 (mem_setAssoc_of_ne _ _ _ _ _ hk.1 hmem)

theorem mem_queryFold (qs : List (String × GoVal)) :
    ∀ (acc : List (String × String)) (k : String) (v : GoVal),
      (qs.map Prod.fst).Nodup → (k, v) ∈ qs →
      (k, convertString v) ∈ qs.foldl (fun q kv => setAssoc q kv.1 (convertString kv.2)) acc := by
  induction qs with
  | nil => intro acc k v _ h; simp at h
  | cons hd tl ih =>
    intro acc k v hnd hmem
    rcases hd with ⟨hk, hv⟩
    simp only [List.map_cons, List.nodup_cons] at hnd
    rcases List.mem_cons.mp hmem with h1 | h1
    · obtain ⟨rfl, rfl⟩ := Prod.mk.injEq .. |>.mp h1
      exact mem_queryFold_preserve tl _ k (convertString v) hnd.1
        (mem_setAssoc_self acc k (convertString v))
    · exact ih _ k v hnd.2 h1

theorem buildRequest_query (s : Strava) (method uri : String) (p : RequestParams) :
    (buildRequest s method uri p).query = encodeQueries p.Queries := rfl

/-! Sample values used by the concrete witnesses. -/

/-- A sample configuration for concrete evaluations. -/
def sampleConfig : Config :=
  { Host := "https://www.strava.com/api/v3", ClientID := "client42",
    ClientSecret := "hunter2", RedirectURI := "https://cb.example", Timeout := 10,
    Scope := "activity:read" }

/-- A sample client state for concrete evaluations. -/
def sampleState : Strava :=
  { cfg := sampleConfig, accessToken := "tok123", userID := 7 }

/-- A transport whose send fails: `Do` returns a nil response and an error. -/
def failingTransport : HTTPRequest → DoResult :=
  fun _ => .fail "dial tcp: connection refused"

/-- A transport that always answers HTTP 401. -/
def mock401Transport : HTTPRequest → DoResult :=
  fun _ => .ok { statusCode := 401, body := "unauthorized" }

/-- A transport that always answers HTTP 404. -/
def mock404Transport : HTTPRequest → DoResult :=
  fun _ => .ok { statusCode := 404, body := "not found" }

/-- A sample `json.Unmarshal` model for a single activity. -/
def sampleUnmarshalActivity : String → Activity × Option GoError :=
  fun _ => ({ Activity.zero with ID := 5, Name := "Morning Run" }, none)

/-- A sample `json.Unmarshal` model for an access token. -/
def sampleUnmarshalAT : String → AccessToken × Option GoError :=
  fun _ => ({ zeroAccessToken with AccessToken := "fresh" }, none)

/-- Request parameters holding one query entry, used by the C6 witness. -/
def sampleQueryParams : RequestParams :=
  { Queries := [("page", .nat 2)] }

/-- C1: for every (HTTP method, RequestParams) pair, the Content-Type header of
the request constructed by `Request` is application/json exactly when the
method is POST and `WithFormURLEncoded` is false, and
application/x-www-form-urlencoded in every other case. -/
theorem contentType_decision_table (s : Strava) (method uri : String) (p : RequestParams) :
    getAssoc (buildRequest s method uri p).headers "Content-Type" =
      some (if method = MethodPost ∧ p.WithFormURLEncoded = false
            then "application/json" else "application/x-www-form-urlencoded") := by
  rcases p with ⟨qs, vs, wb, wf⟩
  cases wb <;> simp [buildRequest, getAssoc, setAssoc]

/-- C2: whenever the transport successfully returns a response with HTTP
status 401, `Request` returns the `AuthorizationError` sentinel as its error
while still returning that very response. -/
theorem request_401_authorizationError (s : Strava) (method uri : String) (p : RequestParams)
    (transport : HTTPRequest → DoResult) (r : HTTPResponse)
    (hok : transport (buildRequest s method uri p) = .ok r)
    (h401 : r.statusCode = StatusUnauthorized) :
    s.Request method uri p transport = .result r (some .authorizationError) := by
  simp [Strava.Request, hok, h401]

/-- C2 witness: a mocked 401 response on a concrete GET yields the sentinel
together with the response. -/
theorem request_401_authorizationError_witness :
    mock401Transport
        (buildRequest sampleState MethodGet "https://www.strava.com/api/v3/activities"
          { WithBearer := true }) =
      .ok { statusCode := 401, body := "unauthorized" } ∧
    ({ statusCode := 401, body := "unauthorized" } : HTTPResponse).statusCode =
      StatusUnauthorized ∧
    sampleState.Request MethodGet "https://www.strava.com/api/v3/activities"
        { WithBearer := true } mock401Transport =
      .result { statusCode := 401, body := "unauthorized" } (some .authorizationError) :=
  ⟨rfl, rfl,
    request_401_authorizationError sampleState MethodGet
      "https://www.strava.com/api/v3/activities" { WithBearer := true }
      mock401Transport { statusCode := 401, body := "unauthorized" } rfl rfl⟩

/-- C3: the claim says a failed transport send surfaces the transport error
unchanged; the code instead reads `r.StatusCode` before checking the error, so
a failed send (nil response) dereferences a nil pointer and panics.  This
theorem evaluates the code at such a failing input. -/
theorem request_transport_error_panics :
    sampleState.Request MethodGet "https://www.strava.com/api/v3/athlete"
      { WithBearer := true } failingTransport = .panicked := rfl

/-- C4: for every token and every grant other than the two supported constants,
`AuthorizationAccessToken` returns the unsupported-grant error whose message
contains the invalid grant value, the result does not depend on the transport,
the JSON decoder, or the token (hence no network call is observable), and the
client state is returned unchanged. -/
theorem aat_unsupported_grant (s : Strava) (t1 t2 : HTTPRequest → DoResult)
    (u1 u2 : String → AccessToken × Option GoError) (tok1 tok2 grant : String)
    (h1 : grant ≠ GrantAuthorizationCode) (h2 : grant ≠ GrantRefreshToken) :
    s.AuthorizationAccessToken t1 u1 tok1 grant =
      (s, .result zeroAccessToken
        (some (.errorMsg ("grant_type `" ++ grant ++ "` not supported")))) ∧
    s.AuthorizationAccessToken t1 u1 tok1 grant =
      s.AuthorizationAccessToken t2 u2 tok2 grant ∧
    ∃ pre post, "grant_type `" ++ grant ++ "` not supported" = pre ++ grant ++ post := by
  refine ⟨?_, ?_, "grant_type `", "` not supported", rfl⟩
  · simp [Strava.AuthorizationAccessToken, h1, h2]
  · simp [Strava.AuthorizationAccessToken, h1, h2]

/-- C4 witness: the bogus grant of the spec's test sentence, at two unrelated
transports and decoders. -/
theorem aat_unsupported_grant_witness :
    ("bogus_grant" ≠ GrantAuthorizationCode ∧ "bogus_grant" ≠ GrantRefreshToken) ∧
    (sampleState.AuthorizationAccessToken failingTransport sampleUnmarshalAT "x" "bogus_grant" =
      (sampleState, .result zeroAccessToken
        (some (.errorMsg ("grant_type `" ++ "bogus_grant" ++ "` not supported")))) ∧
    sampleState.AuthorizationAccessToken failingTransport sampleUnmarshalAT "x" "bogus_grant" =
      sampleState.AuthorizationAccessToken mock401Transport
        (fun _ => (zeroAccessToken, none)) "y" "bogus_grant" ∧
    ∃ pre post,
      "grant_type `" ++ "bogus_grant" ++ "` not supported" = pre ++ "bogus_grant" ++ post) :=
  ⟨⟨by decide, by decide⟩,
    aat_unsupported_grant sampleState failingTransport mock401Transport sampleUnmarshalAT
      (fun _ => (zeroAccessToken, none)) "x" "y" "bogus_grant" (by decide) (by decide)⟩

/-- C5: the request constructed by `Request` carries
`Authorization: Bearer <accessToken>` exactly when `WithBearer` is true (with
no validation of the token, which may be empty), and no Authorization header
otherwise. -/
theorem bearer_header (s : Strava) (method uri : String) (p : RequestParams) :
    getAssoc (buildRequest s method uri p).headers "Authorization" =
      if p.WithBearer then some ("Bearer " ++ s.accessToken) else none := by
  rcases p with ⟨qs, vs, wb, wf⟩
  cases wb <;> simp [buildRequest, getAssoc, setAssoc]

/-- C6: every key/value entry of `Queries` (a Go map, hence with distinct keys)
appears, serialized by `convert.String`, in the query string of the
constructed request, for every HTTP method. -/
theorem queries_in_query_string (s : Strava) (method uri : String) (p : RequestParams)
    (k : String) (v : GoVal)
    (hnd : (p.Queries.map Prod.fst).Nodup) (hmem : (k, v) ∈ p.Queries) :
    (k, convertString v) ∈ (buildRequest s method uri p).query := by
  rw [buildRequest_query]
  exact mem_queryFold p.Queries [] k v hnd hmem

/-- C6 witness: the single entry page=2 appears in the query string of a
concrete GET. -/
theorem queries_in_query_string_witness :
    ((sampleQueryParams.Queries.map Prod.fst).Nodup ∧
      ("page", GoVal.nat 2) ∈ sampleQueryParams.Queries) ∧
    ("page", convertString (GoVal.nat 2)) ∈
      (buildRequest sampleState MethodGet "https://www.strava.com/api/v3/activities"
        sampleQueryParams).query :=
  ⟨⟨by decide, by decide⟩,
    queries_in_query_string sampleState MethodGet "https://www.strava.com/api/v3/activities"
      sampleQueryParams "page" (GoVal.nat 2) (by decide) (by decide)⟩

/-- C7: `Queries()` on an `ActivitiesRequest` contains exactly the non-zero
fields, in the order of the source's checks: `after` and `before` as the unix
timestamps of non-zero dates, `page` and `per_page` for positive values; in
particular the zero-valued request yields the empty mapping and a request with
only `Page = 2` yields exactly the single entry page=2. -/
theorem activitiesRequest_queries_exact (p : ActivitiesRequest) :
    p.Queries =
      (if p.After.isZero = false then [("after", GoVal.int p.After.unix)] else []) ++
      (if p.Before.isZero = false then [("before", GoVal.int p.Before.unix)] else []) ++
      (if p.Page > 0 then [("page", GoVal.nat p.Page)] else []) ++
      (if p.PerPage > 0 then [("per_page", GoVal.nat p.PerPage)] else []) := by
  rcases p with ⟨⟨bz, bu⟩, ⟨az, au⟩, pg, pp⟩
  cases az <;> cases bz <;>
    by_cases h1 : pg > 0 <;> by_cases h2 : pp > 0 <;>
      simp [ActivitiesRequest.Queries, setAssoc, h1, h2]

/-- C8: if the authenticated GET of `Activity(id)` comes back with any status
other than 401, the result is the decoded body when the status is 200, and the
zero-valued `Activity` with a nil error for every other status. -/
theorem activity_non200_zero_value (s : Strava) (transport : HTTPRequest → DoResult)
    (unmarshalActivity : String → Activity × Option GoError) (id : Nat) (r : HTTPResponse)
    (hok : transport (buildRequest s MethodGet (s.cfg.Host ++ ("/activities/" ++ toString id))
      { WithBearer := true }) = .ok r)
    (h401 : r.statusCode ≠ StatusUnauthorized) :
    s.Activity transport unmarshalActivity id =
      if r.statusCode = StatusOK
      then .result (unmarshalActivity r.body).1 (unmarshalActivity r.body).2
      else .result Activity.zero none := by
  simp [Strava.Activity, Strava.GET, Strava.Request, hok, h401]

/-- C8 witness: a mocked 404 yields the zero-valued Activity and a nil error
(and the 200 branch of the statement is vacuously evaluated). -/
theorem activity_non200_zero_value_witness :
    (mock404Transport
        (buildRequest sampleState MethodGet
          (sampleState.cfg.Host ++ ("/activities/" ++ toString 9)) { WithBearer := true }) =
      .ok { statusCode := 404, body := "not found" } ∧
    ({ statusCode := 404, body := "not found" } : HTTPResponse).statusCode ≠
      StatusUnauthorized) ∧
    sampleState.Activity mock404Transport sampleUnmarshalActivity 9 =
      .result Activity.zero none :=
  ⟨⟨rfl, by decide⟩,
    activity_non200_zero_value sampleState mock404Transport sampleUnmarshalActivity 9
      { statusCode := 404, body := "not found" } rfl (by decide)⟩

/-- C9: the body of every request constructed by `Request` is empty — the
`Values` mapping is accepted but never serialized, for POST as for GET. -/
theorem request_body_always_empty (s : Strava) (method uri : String) (p : RequestParams) :
    (buildRequest s method uri p).body = "" := by
  rcases p with ⟨qs, vs, wb, wf⟩
  cases wb <;> rfl

theorem aatSend_snd_congr (s1 s2 : Strava) (transport : HTTPRequest → DoResult)
    (unmarshalAccessToken : String → AccessToken × Option GoError)
    (grant : String) (p : RequestParams) (h : s1.accessToken = s2.accessToken) :
    (aatSend s1 transport unmarshalAccessToken grant p).2 =
      (aatSend s2 transport unmarshalAccessToken grant p).2 := by
  have hb : ∀ q, buildRequest s1 MethodPost "https://www.strava.com/api/v3/oauth/token" q =
      buildRequest s2 MethodPost "https://www.strava.com/api/v3/oauth/token" q := by
    intro q
    unfold buildRequest
    rw [h]
  simp only [aatSend, Strava.Request, hb]
  rcases transport (buildRequest s2 MethodPost "https://www.strava.com/api/v3/oauth/token"
      { p with Queries := setAssoc p.Queries "grant_type" (GoVal.str grant) }) with r | e
  · by_cases h401 : r.statusCode = StatusUnauthorized <;> simp [h401]
  · rfl

/-- C10: `userID` is written by `SetUserID` and read by no operation: two
client states that differ only in `userID` build identical requests and return
identical results from every operation, for the same transport responses and
decoders (for `AuthorizationAccessToken` the Go-visible result is the second
component; the first component is the threaded state, which carries the
differing `userID` itself). -/
theorem userID_never_observable (s : Strava) (u1 u2 : Nat)
    (method uri state tok grant : String) (p : RequestParams)
    (transport : HTTPRequest → DoResult)
    (unmarshalActivity : String → Activity × Option GoError)
    (unmarshalActivities : String → ActivityList × Option GoError)
    (unmarshalAccessToken : String → AccessToken × Option GoError)
    (id : Nat) (ar : ActivitiesRequest) :
    (s.SetUserID u1).userID = u1 ∧
    buildRequest (s.SetUserID u1) method uri p = buildRequest (s.SetUserID u2) method uri p ∧
    (s.SetUserID u1).Request method uri p transport =
      (s.SetUserID u2).Request method uri p transport ∧
    (s.SetUserID u1).Activity transport unmarshalActivity id =
      (s.SetUserID u2).Activity transport unmarshalActivity id ∧
    (s.SetUserID u1).Activities transport unmarshalActivities ar =
      (s.SetUserID u2).Activities transport unmarshalActivities ar ∧
    ((s.SetUserID u1).AuthorizationAccessToken transport unmarshalAccessToken tok grant).2 =
      ((s.SetUserID u2).AuthorizationAccessToken transport unmarshalAccessToken tok grant).2 ∧
    (s.SetUserID u1).AuthorizationURL state = (s.SetUserID u2).AuthorizationURL state := by
  refine ⟨rfl, rfl, rfl, rfl, rfl, ?_, rfl⟩
  by_cases hg1 : grant = GrantAuthorizationCode
  · simp only [Strava.AuthorizationAccessToken, Strava.SetUserID, hg1, if_pos]
    exact aatSend_snd_congr _ _ _ _ _ _ rfl
  · by_cases hg2 : grant = GrantRefreshToken
    · simp only [Strava.AuthorizationAccessToken, Strava.SetUserID, hg1, hg2, if_neg, if_pos,
        if_true, if_false, ite_true, ite_false]
      exact aatSend_snd_congr _ _ _ _ _ _ rfl
    · simp [Strava.AuthorizationAccessToken, Strava.SetUserID, hg1, hg2]
